import Mathlib

/-!
Verification of the shell-control agent (`src/shell-control/agent/backend/`):
a shallow embedding in Lean 4 of the data model and operations of
`shellcontrol.py` (the agent orchestration loop, shell runner, usage
accounting) and `agent_tools.py` (the tool-layer shell executor), together
with theorems settling the specification claims.

Python values reachable in this code base are modelled by `PyValue`;
machine behaviour external to the program (the subprocess, the file
system, the model endpoint) is supplied through explicit oracle
structures, so every definition is executable.
-/

namespace ShellControl

/-- A Python value as used by the agent code: `None`, booleans, integers,
floats (modelled as rationals), strings, lists and string-keyed dicts
(association lists, unique keys by construction). -/
inductive PyValue where
  | none  : PyValue
  | bool  : Bool → PyValue
  | int   : Int → PyValue
  | float : ℚ → PyValue
  | str   : String → PyValue
  | list  : List PyValue → PyValue
  | dict  : List (String × PyValue) → PyValue
  deriving Repr

/-- Python truthiness (`bool(x)`): `None`, `False`, `0`, `0.0`, `""`,
`[]` and the empty dict are falsy; everything else is truthy. -/
def pyTruthy : PyValue → Bool
  | .none => false
  | .bool b => b
  | .int n => n != 0
  | .float q => q != 0
  | .str s => s != ""
  | .list l => !l.isEmpty
  | .dict d => !d.isEmpty

/-- First binding for a key in a dict (Python `d[k]` presence);
keys are unique by construction, the first hit is the binding. -/
def pyDictGet (kvs : List (String × PyValue)) (k : String) : Option PyValue :=
  match kvs with
  | [] => Option.none
  | (k', v) :: rest => if k' = k then some v else pyDictGet rest k

/-- `dict.get(k, default)` of Python. -/
def pyDictGetD (kvs : List (String × PyValue)) (k : String) (default : PyValue) : PyValue :=
  (pyDictGet kvs k).getD default

/-- Insert a key into a dict, replacing an existing binding in place
(Python dict insertion semantics for duplicate JSON object keys: the
last value wins). -/
def dictInsert (kvs : List (String × PyValue)) (k : String) (v : PyValue) :
    List (String × PyValue) :=
  match kvs with
  | [] => [(k, v)]
  | (k', v') :: rest =>
      if k' = k then (k, v) :: rest else (k', v') :: dictInsert rest k v

/-- The ASCII whitespace characters stripped by Python `str.strip()`. -/
def isPySpace (c : Char) : Bool :=
  c = ' ' || c = '\t' || c = '\n' || c = '\r' || c = Char.ofNat 11 || c = Char.ofNat 12

/-- Python `str.strip()`: remove leading and trailing whitespace. -/
def pyStrip (s : String) : String :=
  String.mk (((s.data.dropWhile isPySpace).reverse.dropWhile isPySpace).reverse)

/-- Python `str(x)` as used for f-string interpolation in the agent code.
`repr` of nested containers is abbreviated (no claim evaluates it on
containers). -/
def pyStrOf : PyValue → String
  | .none => "None"
  | .bool b => if b then "True" else "False"
  | .int n => toString n
  | .float q => toString q.num ++ "/" ++ toString q.den
  | .str s => s
  | .list _ => "[...]"
  | .dict _ => "\x7b...\x7d"

/-! ### JSON parsing (`json.loads`)

A strict recursive-descent parser for the JSON grammar, modelling
Python `json.loads` on the inputs this program can meet: objects,
arrays, strings with the standard escapes, integers, fractional and
exponent numbers, `true`/`false`/`null`.  (The Python extension
accepting bare `NaN`/`Infinity` is not modelled; no claim involves
non-finite numbers.)  Parsing is fuelled; fuel bounded by the input
length is always sufficient. -/

/-- JSON structural whitespace. -/
def jsonWs (c : Char) : Bool :=
  c = ' ' || c = '\t' || c = '\n' || c = '\r'

/-- Drop leading JSON whitespace. -/
def skipWs : List Char → List Char
  | [] => []
  | c :: cs => if jsonWs c then skipWs cs else c :: cs

/-- Value of a hexadecimal digit. -/
def hexVal (c : Char) : Option Nat :=
  if '0' ≤ c ∧ c ≤ '9' then some (c.toNat - '0'.toNat)
  else if 'a' ≤ c ∧ c ≤ 'f' then some (c.toNat - 'a'.toNat + 10)
  else if 'A' ≤ c ∧ c ≤ 'F' then some (c.toNat - 'A'.toNat + 10)
  else Option.none

/-- Decimal digit test. -/
def isDigitCh (c : Char) : Bool := '0' ≤ c && c ≤ '9'

/-- Parse a JSON string body after the opening quote, handling the
standard escapes (`\u` escapes become the code point directly). -/
def parseJString (fuel : Nat) (cs : List Char) : Option (String × List Char) :=
  match fuel with
  | 0 => Option.none
  | fuel + 1 =>
    match cs with
    | [] => Option.none
    | c :: rest =>
      if c = '"' then some ("", rest)
      else if c = '\\' then
        match rest with
        | [] => Option.none
        | e :: rest2 =>
          let esc : Option (Char × List Char) :=
            if e = '"' then some ('"', rest2)
            else if e = '\\' then some ('\\', rest2)
            else if e = '/' then some ('/', rest2)
            else if e = 'b' then some (Char.ofNat 8, rest2)
            else if e = 'f' then some (Char.ofNat 12, rest2)
            else if e = 'n' then some ('\n', rest2)
            else if e = 'r' then some ('\r', rest2)
            else if e = 't' then some ('\t', rest2)
            else if e = 'u' then
              match rest2 with
              | h1 :: h2 :: h3 :: h4 :: rest3 =>
                match hexVal h1, hexVal h2, hexVal h3, hexVal h4 with
                | some a, some b, some c3, some d =>
                    some (Char.ofNat (((a * 16 + b) * 16 + c3) * 16 + d), rest3)
                | _, _, _, _ => Option.none
              | _ => Option.none
            else Option.none
          match esc with
          | some (ch, rest') =>
            match parseJString fuel rest' with
            | some (s, rest'') => some (String.mk (ch :: s.data), rest'')
            | Option.none => Option.none
          | Option.none => Option.none
      else if c.toNat < 32 then Option.none
      else
        match parseJString fuel rest with
        | some (s, rest') => some (String.mk (c :: s.data), rest')
        | Option.none => Option.none

/-- Digits of a decimal run as a natural number, with the run length. -/
def takeDigits (cs : List Char) : List Char × List Char :=
  match cs with
  | [] => ([], [])
  | c :: rest =>
    if isDigitCh c then
      let (ds, rest') := takeDigits rest
      (c :: ds, rest')
    else ([], cs)

/-- Natural-number value of a digit run. -/
def digitsVal (ds : List Char) : Nat :=
  ds.foldl (fun acc c => acc * 10 + (c.toNat - '0'.toNat)) 0

/-- Parse a JSON number after an optional leading minus sign has been
recorded: integer part (no leading zeros except `0` itself), optional
fraction, optional exponent.  Integral literals become `PyValue.int`,
the rest `PyValue.float`, as `json.loads` produces `int` vs `float`. -/
def parseNumber (neg : Bool) (cs : List Char) : Option (PyValue × List Char) :=
  let (ints, rest) := takeDigits cs
  if ints.isEmpty then Option.none
  else if ints.length > 1 ∧ ints.headD '0' = '0' then Option.none
  else
    let ipart : Nat := digitsVal ints
    let (frac, rest2) :=
      match rest with
      | '.' :: cs2 =>
        let (ds, rest') := takeDigits cs2
        (some ds, rest')
      | _ => (Option.none, rest)
    match frac with
    | some [] => Option.none
    | _ =>
      let (expo, _rest3) :=
        match rest2 with
        | e :: cs3 =>
          if e = 'e' ∨ e = 'E' then
            match cs3 with
            | '+' :: cs4 => (some (false, takeDigits cs4), cs4)
            | '-' :: cs4 => (some (true, takeDigits cs4), cs4)
            | _ => (some (false, takeDigits cs3), cs3)
          else (Option.none, rest2)
        | [] => (Option.none, rest2)
      match expo with
      | some (_, ([], _)) => Option.none
      | some (eneg, (eds, rest')) =>
        let fracDs := (frac.getD []).length
        let fracVal := digitsVal (frac.getD [])
        let mant : ℚ := (if neg then -1 else 1) *
          ((ipart : ℚ) + (fracVal : ℚ) / ((10 : ℚ) ^ fracDs))
        let e : ℤ := (if eneg then -1 else 1) * (digitsVal eds : ℤ)
        some (.float (mant * (10 : ℚ) ^ e), rest')
      | Option.none =>
        match frac with
        | some ds =>
          let q : ℚ := (if neg then -1 else 1) *
            ((ipart : ℚ) + (digitsVal ds : ℚ) / ((10 : ℚ) ^ ds.length))
          some (.float q, rest2)
        | Option.none =>
          some (.int (if neg then -(ipart : ℤ) else (ipart : ℤ)), rest2)

mutual

/-- Parse one JSON value (leading whitespace already skipped). -/
def parseValue (fuel : Nat) (cs : List Char) : Option (PyValue × List Char) :=
  match fuel with
  | 0 => Option.none
  | fuel + 1 =>
    match cs with
    | [] => Option.none
    | c :: rest =>
      if c = '"' then
        match parseJString (rest.length + 1) rest with
        | some (s, rest') => some (.str s, rest')
        | Option.none => Option.none
      else if c = '\x7b' then
        parseMembers fuel (skipWs rest) [] true
      else if c = '[' then
        parseElements fuel (skipWs rest) [] true
      else if c = 't' then
        match rest with
        | 'r' :: 'u' :: 'e' :: rest' => some (.bool true, rest')
        | _ => Option.none
      else if c = 'f' then
        match rest with
        | 'a' :: 'l' :: 's' :: 'e' :: rest' => some (.bool false, rest')
        | _ => Option.none
      else if c = 'n' then
        match rest with
        | 'u' :: 'l' :: 'l' :: rest' => some (.none, rest')
        | _ => Option.none
      else if c = '-' then parseNumber true rest
      else if isDigitCh c then parseNumber false cs
      else Option.none

/-- Parse the member list of a JSON object after the opening brace,
whitespace skipped; `first` marks that no member has been read yet. -/
def parseMembers (fuel : Nat) (cs : List Char) (acc : List (String × PyValue))
    (first : Bool) : Option (PyValue × List Char) :=
  match fuel with
  | 0 => Option.none
  | fuel + 1 =>
    match cs with
    | '\x7d' :: rest => if first then some (.dict acc, rest) else Option.none
    | '"' :: rest =>
      match parseJString (rest.length + 1) rest with
      | some (k, rest') =>
        match skipWs rest' with
        | ':' :: rest2 =>
          match parseValue fuel (skipWs rest2) with
          | some (v, rest3) =>
            let acc' := dictInsert acc k v
            match skipWs rest3 with
            | ',' :: rest4 =>
              match skipWs rest4 with
              | '"' :: rest5 => parseMembers fuel ('"' :: rest5) acc' false
              | _ => Option.none
            | '\x7d' :: rest4 => some (.dict acc', rest4)
            | _ => Option.none
          | Option.none => Option.none
        | _ => Option.none
      | Option.none => Option.none
    | _ => Option.none

/-- Parse the element list of a JSON array after the opening bracket,
whitespace skipped; `first` marks that no element has been read yet. -/
def parseElements (fuel : Nat) (cs : List Char) (acc : List PyValue)
    (first : Bool) : Option (PyValue × List Char) :=
  match fuel with
  | 0 => Option.none
  | fuel + 1 =>
    match cs with
    | ']' :: rest => if first then some (.list acc.reverse, rest) else Option.none
    | [] => Option.none
    | cs' =>
      match parseValue fuel cs' with
      | some (v, rest) =>
        match skipWs rest with
        | ',' :: rest2 => parseElements fuel (skipWs rest2) (v :: acc) false
        | ']' :: rest2 => some (.list (v :: acc).reverse, rest2)
        | _ => Option.none
      | Option.none => Option.none

end

/-- `json.loads`: parse exactly one JSON document, allowing surrounding
whitespace, rejecting any trailing garbage. -/
def json_loads (s : String) : Option PyValue :=
  match parseValue (s.data.length + 1) (skipWs s.data) with
  | some (v, rest) => if (skipWs rest).isEmpty then some v else Option.none
  | Option.none => Option.none

/-! ### Usage accounting (`LLMClient.update_usage_stats` / `reset_usage`)

`shellcontrol.py` and `llm_client.py` carry identical implementations;
one embedding covers both cited symbols.  Python floats are modelled
as exact rationals. -/

/-- `INPUT_COST_PER_MILLION = 0.4` (USD per million prompt tokens). -/
def INPUT_COST_PER_MILLION : ℚ := 2/5

/-- `OUTPUT_COST_PER_MILLION = 0.4` (USD per million completion tokens). -/
def OUTPUT_COST_PER_MILLION : ℚ := 2/5

/-- `NATIVE_CURRENCY_PER_USD = 404`. -/
def NATIVE_CURRENCY_PER_USD : ℚ := 404

/-- The `self.usage` dict of `LLMClient`. -/
structure UsageStats where
  prompt_tokens : Int
  completion_tokens : Int
  prompt_cost : ℚ
  completion_cost : ℚ
  total_cost : ℚ
  total_cost_native : ℚ
  deriving Repr, DecidableEq

/-- `LLMClient.reset_usage`: all counters and costs zero. -/
def reset_usage : UsageStats :=
  { prompt_tokens := 0, completion_tokens := 0, prompt_cost := 0,
    completion_cost := 0, total_cost := 0, total_cost_native := 0 }

/-- `LLMClient.update_usage_stats`: add the new token counts to the
running counters, then recompute every cost field from the counters
and the fixed per-million rates. -/
def update_usage_stats (u : UsageStats) (add_prompt_tokens add_completion_tokens : Int) :
    UsageStats :=
  let prompt_tokens := u.prompt_tokens + add_prompt_tokens
  let completion_tokens := u.completion_tokens + add_completion_tokens
  let prompt_cost := (prompt_tokens : ℚ) / 1000000 * INPUT_COST_PER_MILLION
  let completion_cost := (completion_tokens : ℚ) / 1000000 * OUTPUT_COST_PER_MILLION
  let total_cost := prompt_cost + completion_cost
  { prompt_tokens := prompt_tokens, completion_tokens := completion_tokens,
    prompt_cost := prompt_cost, completion_cost := completion_cost,
    total_cost := total_cost,
    total_cost_native := total_cost * NATIVE_CURRENCY_PER_USD }

/-- The cost the two token counters determine: each counter divided by
one million and multiplied by its per-million rate, summed.  (The
expression `update_usage_stats` recomputes on every call.) -/
def costOfCounters (prompt_tokens completion_tokens : Int) : ℚ :=
  (prompt_tokens : ℚ) / 1000000 * INPUT_COST_PER_MILLION
    + (completion_tokens : ℚ) / 1000000 * OUTPUT_COST_PER_MILLION

/-- Usage after a whole conversation: fold the per-query token-count
additions over the state `reset_usage` installed at conversation start
(the only call site of `reset_usage` is `LLMClient.__init__`). -/
def applyUsageUpdates (updates : List (Int × Int)) : UsageStats :=
  updates.foldl (fun u p => update_usage_stats u p.1 p.2) reset_usage

/-! ### The shell runner (`ShellAgent.run_shell_command_async` and
`AgentTools.execute_shell_command`)

The machine behaviour outside the program — whether the interpreter
spawn raises, whether the child outlives the timeout, what it writes
and how it exits — is an explicit oracle `ShellEnv`.  Both functions
return the structured result dict paired with a `Bool` recording
whether the temporary script file still exists when the call returns. -/

/-- Oracle for one external shell execution. -/
structure ShellEnv where
  /-- `asyncio.create_subprocess_exec` raises. -/
  spawnFails : Bool
  /-- `str(ex)` of the spawn exception. -/
  spawnErrMsg : String
  /-- `process.communicate()` exceeds the timeout (`asyncio.TimeoutError`). -/
  timesOut : Bool
  /-- Decoded stdout of the child when it completes in time. -/
  stdout : String
  /-- Decoded stderr of the child when it completes in time. -/
  stderr : String
  /-- `process.returncode` after an in-time completion. -/
  returncode : Int
  /-- `process.returncode` after `kill()` + `wait()` on the timeout
  path (the negative signal number of the killed child). -/
  killedReturncode : Int
  deriving Repr, DecidableEq

/-- The structured result dict of the shell runner. -/
structure CmdResult where
  output : String
  error : String
  additional_error : Option String
  returncode : Int
  deriving Repr, DecidableEq

/-- The result dict as the Python value the tool event carries
(`additional_error` is `None` when absent). -/
def cmdResultToPy (r : CmdResult) : PyValue :=
  .dict [("output", .str r.output), ("error", .str r.error),
         ("additional_error",
           match r.additional_error with
           | some s => .str s
           | Option.none => .none),
         ("returncode", .int r.returncode)]

/-- Python type name, as it appears in `AttributeError` texts. -/
def pyTypeName : PyValue → String
  | .none => "NoneType"
  | .bool _ => "bool"
  | .int _ => "int"
  | .float _ => "float"
  | .str _ => "str"
  | .list _ => "list"
  | .dict _ => "dict"

/-- `str(ex)` of an `AttributeError` (quoting abbreviated). -/
def noAttrText (tname attr : String) : String :=
  tname ++ " object has no attribute " ++ attr

/-- `str(ex)` of the `UnboundLocalError` raised when a never-assigned
local is read (quoting abbreviated). -/
def unboundLocalErrorText (v : String) : String :=
  "cannot access local variable " ++ v ++ " where it is not associated with a value"

/-- `COMMAND_TIMEOUT_SECONDS = 2 * 60`. -/
def COMMAND_TIMEOUT_SECONDS : Nat := 2 * 60

/-- The supplementary error synthesized on the timeout path. -/
def timeoutKilledMsg (t : String) : String :=
  "Error: The command execution exceeded the timeout of " ++ t ++
    " seconds and was killed."

/-- `re.sub(r'^/tmp/[^:]+\.sh: line \d+: ', 'bash: ', error)`: when the
error text starts with a `/tmp/<name>.sh: line <n>: ` marker (the run
up to the first colon being `/tmp/` plus a nonempty name ending in
`.sh`), rewrite the marker to `bash: `; otherwise leave the text. -/
def removeTmpLineNoise (error : String) : String :=
  match error.data with
  | '/' :: 't' :: 'm' :: 'p' :: '/' :: rest =>
    let y := rest.takeWhile (fun c => c ≠ ':')
    let rest2 := rest.drop y.length
    if y.length ≥ 4 ∧ y.reverse.take 3 = ['h', 's', '.'] then
      match rest2 with
      | ':' :: ' ' :: 'l' :: 'i' :: 'n' :: 'e' :: ' ' :: rest3 =>
        let (ds, rest4) := takeDigits rest3
        if ds.isEmpty then error
        else
          match rest4 with
          | ':' :: ' ' :: tail => String.mk ("bash: ".data ++ tail)
          | _ => error
      | _ => error
    else error
  | _ => error

/-- The exception, if any, raised while reducing the command argument
and writing it into the temporary script
(`command.get("parameters", {}).get("command", "")` for a dict,
`command.encode()` for anything that is not a string by then). -/
def scriptWriteError (command : PyValue) : Option String :=
  match command with
  | .dict kvs =>
    match pyDictGetD kvs "parameters" (.dict []) with
    | .dict pkvs =>
      match pyDictGetD pkvs "command" (.str "") with
      | .str _ => Option.none
      | v => some (noAttrText (pyTypeName v) "encode")
    | v => some (noAttrText (pyTypeName v) "get")
  | .str _ => Option.none
  | v => some (noAttrText (pyTypeName v) "encode")

/-- `ShellAgent.run_shell_command_async`.  Returns the result dict and
whether the temporary script file still exists after the call.

Control flow of the source, in order: the temporary script is created
and the command written to it (raising per `scriptWriteError`); the
interpreter is spawned; the inner `try` waits for completion under the
timeout — on `TimeoutError` the child is killed and reaped,
`additional_error` is set and `stdout`, `stderr` are reassigned, but
the locals `output` and `error` (assigned only on the completion path)
stay unbound; the `finally` removes the script file; the following
`if error:` statement then raises `UnboundLocalError` on the timeout
path, which the outer handler turns into the generic unexpected-error
result with returncode `-1`.  An exception raised before the inner
`try` (write or spawn) skips the `finally`, so the script file
survives those paths. -/
def run_shell_command_async (env : ShellEnv) (command : PyValue) : CmdResult × Bool :=
  match scriptWriteError command with
  | some m =>
    ({ output := "", error := "",
       additional_error := some ("Unexpected error: " ++ m), returncode := -1 }, true)
  | Option.none =>
    if env.spawnFails then
      ({ output := "", error := "",
         additional_error := some ("Unexpected error: " ++ env.spawnErrMsg),
         returncode := -1 }, true)
    else
      let output? : Option String :=
        if env.timesOut then Option.none else some (pyStrip env.stdout)
      let error? : Option String :=
        if env.timesOut then Option.none else some (pyStrip env.stderr)
      let additional_error : Option String :=
        if env.timesOut then some (timeoutKilledMsg (toString COMMAND_TIMEOUT_SECONDS))
        else Option.none
      match error? with
      | Option.none =>
        ({ output := "", error := "",
           additional_error :=
             some ("Unexpected error: " ++ unboundLocalErrorText "error"),
           returncode := -1 }, false)
      | some error =>
        let error := if error ≠ "" then removeTmpLineNoise error else error
        ({ output := output?.getD "", error := error,
           additional_error := additional_error, returncode := env.returncode }, false)

/-- `AgentTools.execute_shell_command` (`agent_tools.py`): identical
runner body, but the command is a string checked for truthiness up
front (a falsy command raises out of the method before the temporary
file exists), and the timeout comes from
`settings.get("shell_timeout_seconds", 2 * 60)`. -/
def execute_shell_command (settings : List (String × PyValue)) (env : ShellEnv)
    (command : String) : Except String (CmdResult × Bool) :=
  if command = "" then
    .error "Missing command parameter for execute_shell_command"
  else
    let process_timeout := pyDictGetD settings "shell_timeout_seconds" (.int 120)
    if env.spawnFails then
      .ok ({ output := "", error := "",
             additional_error := some ("Unexpected error: " ++ env.spawnErrMsg),
             returncode := -1 }, true)
    else
      let output? : Option String :=
        if env.timesOut then Option.none else some (pyStrip env.stdout)
      let error? : Option String :=
        if env.timesOut then Option.none else some (pyStrip env.stderr)
      let additional_error : Option String :=
        if env.timesOut then some (timeoutKilledMsg (pyStrOf process_timeout))
        else Option.none
      match error? with
      | Option.none =>
        .ok ({ output := "", error := "",
               additional_error :=
                 some ("Unexpected error: " ++ unboundLocalErrorText "error"),
               returncode := -1 }, false)
      | some error =>
        let error := if error ≠ "" then removeTmpLineNoise error else error
        .ok ({ output := output?.getD "", error := error,
               additional_error := additional_error, returncode := env.returncode }, false)

/-- `ShellAgent.format_command_result` (identical to
`AgentTools.format_shell_command_result`): the prose the model sees.
The loop only ever passes the dict built by the shell runner, so the
non-dict branch (an `AttributeError` in Python) is unreachable and
maps to the empty string. -/
def format_command_result (command_result : PyValue) : String :=
  match command_result with
  | .dict kvs =>
    let output := pyDictGetD kvs "output" (.str "")
    let error := pyDictGetD kvs "error" (.str "")
    let additional_error := pyDictGetD kvs "additional_error" (.str "")
    let returncode := pyDictGetD kvs "returncode" (.int 0)
    let output_described :=
      if pyTruthy output then pyStrOf output else "(The command produced no output)"
    let error_described :=
      if pyTruthy error then pyStrOf error else "(The command produced no error output)"
    let error_described :=
      if pyTruthy additional_error then error_described ++ "\n" ++ pyStrOf additional_error
      else error_described
    let rcIsZero :=
      match returncode with
      | .int n => n == 0
      | .float q => q == 0
      | .bool b => !b
      | _ => false
    let output_section := "Output of the command:\n```\n" ++ output_described ++ "\n```\n"
    let error_section :=
      if rcIsZero then "" else "Errors:\n```\n" ++ error_described ++ "\n```\n"
    let exit_section := "Exit status: " ++ pyStrOf returncode
    output_section ++ error_section ++ exit_section
  | _ => ""

/-! ### The orchestration loop (`ShellAgent.process_user_request`)

One iteration of the `while True:` body is modelled as a pure function
`processStep` from the loop state (transcript and usage) and a `World`
oracle (the model reply, its token usage, subprocess and file-system
behaviour) to the events yielded, the new state, the `save_messages`
call if one happened, and whether the loop continues, `break`s, or an
exception escaped to the outer `except` handler of the generator (which
yields a single `ABORT` carrying `str(ex)`, `DEBUG` being off by
default). -/

/-- The event kinds of the agent (`class Event(Enum)`). -/
inductive EventType where
  | AI_RESPONSE | TOOL_SUCCESS | TOOL_ERROR | INFO | WARN | ABORT | COMPLETED
  deriving Repr, DecidableEq

/-- `ShellAgent.event`: a `{"type": ..., "payload": ...}` pair. -/
structure Event where
  type : EventType
  payload : PyValue
  deriving Repr

/-- A transcript message (`{'role': ..., 'content': ...}`). -/
structure Message where
  role : String
  content : String
  deriving Repr, DecidableEq

/-- The mutable loop state: the `LLMClient` transcript and usage. -/
structure AgentState where
  messages : List Message
  usage : UsageStats
  deriving Repr

/-- One `save_messages` call: the conclusion tag and the data written. -/
structure SaveRecord where
  conclusion : String
  user_prompt : String
  messages : List Message
  usage : UsageStats
  deriving Repr

/-- How the iteration leaves the loop body. -/
inductive StepOutcome where
  /-- Fall through or `continue`: the loop queries the model again. -/
  | next
  /-- `break`: terminal, no further model query. -/
  | halt
  /-- An exception escaped to the outer handler: terminal. -/
  | haltEx
  deriving Repr, DecidableEq

/-- Oracle for one iteration: everything the outside world decides. -/
structure World where
  /-- `response.choices[0].message.content` before the `.strip()` in `query`. -/
  responseRaw : String
  /-- `response.usage.prompt_tokens` of this query. -/
  promptTokens : Int
  /-- `response.usage.completion_tokens` of this query. -/
  completionTokens : Int
  /-- Behaviour of a spawned shell child, if one is started. -/
  shellEnv : ShellEnv
  /-- `open(filename).read()` for `read_file`: content or `str(e)`. -/
  readResult : Except String String
  /-- Writing for `write_file`: success or `str(e)`. -/
  writeResult : Except String Unit
  /-- The path `save_messages` returns, if called. -/
  savePath : String
  deriving Repr

/-- Everything one execution of the loop body produces. -/
structure StepResult where
  events : List Event
  state : AgentState
  saved : Option SaveRecord
  outcome : StepOutcome
  deriving Repr

/-- `ShellAgent.parse_response`: `json.loads`, `None` on a decode
error (the argument is always the string the query returned). -/
def parse_response (response : String) : Option PyValue :=
  json_loads response

/-- `ShellAgent.get_tool_call`:
`response_object.get("tool_to_use") if response_object else {}`.
On a truthy non-dict the attribute access raises (`Except.error`). -/
def get_tool_call (response_object : Option PyValue) : Except String PyValue :=
  match response_object with
  | some v =>
    if pyTruthy v then
      match v with
      | .dict kvs => .ok ((pyDictGet kvs "tool_to_use").getD .none)
      | _ => .error (noAttrText (pyTypeName v) "get")
    else .ok (.dict [])
  | Option.none => .ok (.dict [])

/-- `ShellAgent.handle_execute_shell_command`: fetch the `command`
parameter (falsy → a `TOOL_ERROR` event), else run the shell command
and wrap the result dict in a `TOOL_SUCCESS` event.  A non-dict
`parameters` makes `.get` raise. -/
def handle_execute_shell_command (env : ShellEnv) (parameters : PyValue) :
    Except String Event :=
  match parameters with
  | .dict pkvs =>
    let command := pyDictGetD pkvs "command" .none
    if ¬ pyTruthy command then
      .ok ⟨.TOOL_ERROR, .str "Missing command parameter for execute_shell_command"⟩
    else
      .ok ⟨.TOOL_SUCCESS, cmdResultToPy (run_shell_command_async env command).1⟩
  | v => .error (noAttrText (pyTypeName v) "get")

/-- `ShellAgent.handle_read_file`. -/
def handle_read_file (readResult : Except String String) (parameters : PyValue) :
    Except String Event :=
  match parameters with
  | .dict pkvs =>
    let filename := pyDictGetD pkvs "filename" .none
    if ¬ pyTruthy filename then
      .ok ⟨.TOOL_ERROR, .str "Missing filename parameter for read_file"⟩
    else
      match readResult with
      | .ok content =>
        .ok ⟨.TOOL_SUCCESS,
             .str ("Successfully read " ++ pyStrOf filename ++ ":\n" ++ content)⟩
      | .error e => .ok ⟨.TOOL_ERROR, .str ("Read error: " ++ e)⟩
  | v => .error (noAttrText (pyTypeName v) "get")

/-- `ShellAgent.handle_write_file`. -/
def handle_write_file (writeResult : Except String Unit) (parameters : PyValue) :
    Except String Event :=
  match parameters with
  | .dict pkvs =>
    let filename := pyDictGetD pkvs "filename" .none
    if ¬ pyTruthy filename then
      .ok ⟨.TOOL_ERROR, .str "Missing filename parameter for write_file"⟩
    else
      match writeResult with
      | .ok _ =>
        .ok ⟨.TOOL_SUCCESS, .str ("Successfully wrote to " ++ pyStrOf filename)⟩
      | .error e => .ok ⟨.TOOL_ERROR, .str ("Write error: " ++ e)⟩
  | v => .error (noAttrText (pyTypeName v) "get")

/-- The warning yielded on a malformed model reply. -/
def warnInvalidJson : String := "Invalid JSON data provided. Trying again."

/-- The abort payload when no tool selection is present. -/
def abortNoTool : String := "No tool selection provided. Exiting."

/-- The `INFO` payload after `save_messages`. -/
def savedInfoMsg (path : String) : String := "Conversation saved to: " ++ path

/-- The abort payload on a budget breach (the interpolation of the
float limit abbreviates Python float `repr`). -/
def costLimitMsg (limit : ℚ) : String :=
  "Total cost is exceeding the limit ($" ++ pyStrOf (.float limit) ++ "). Exiting."

/-- The abort payload on an unknown tool name. -/
def unknownToolMsg (tool_name : PyValue) : String :=
  "Unknown tool selected: " ++ pyStrOf tool_name ++ ". Exiting."

/-- The cost guard consulted after each handled tool
(`if ABORT_ON_TOTAL_COST > 0 and self.client.get_total_cost() > ABORT_ON_TOTAL_COST:`,
lines 308-313 of `shellcontrol.py`): on breach, persist the transcript
with conclusion `aborted_due_cost`, yield `INFO` and `ABORT`, and
`break`; otherwise fall through to the next model query. -/
def costGuardStep (abortOnTotalCost : ℚ) (userPrompt savePath : String)
    (evs : List Event) (s3 : AgentState) : StepResult :=
  if abortOnTotalCost > 0 ∧ s3.usage.total_cost > abortOnTotalCost then
    { events := evs ++ [⟨.INFO, .str (savedInfoMsg savePath)⟩,
                        ⟨.ABORT, .str (costLimitMsg abortOnTotalCost)⟩],
      state := s3,
      saved := some ⟨"aborted_due_cost", userPrompt, s3.messages, s3.usage⟩,
      outcome := .halt }
  else { events := evs, state := s3, saved := Option.none, outcome := .next }

/-- One iteration of the `while True:` body of
`ShellAgent.process_user_request`, plus the surrounding `except`
handler for exceptions the body raises.

`abortOnTotalCost` is the `ABORT_ON_TOTAL_COST` constant (source
value `0.5`); `userPrompt` is the original user prompt (recorded by
`save_messages`).  In source order: `query()` updates the usage and
returns the stripped reply; a falsy parse result yields the raw text
and a warning and `continue`s; a truthy parse yields the parsed
object; `get_tool_call` fetches `tool_to_use` (raising on a truthy
non-dict reply); a falsy tool call yields `ABORT` and `break`s
without saving; otherwise the raw reply is appended as an assistant
message, the tool is dispatched by name, and after a shell / read /
write tool the cost guard may save, yield `INFO` + `ABORT` and
`break`. -/
def processStep (abortOnTotalCost : ℚ) (userPrompt : String) (w : World)
    (s : AgentState) : StepResult :=
  let responseText := pyStrip w.responseRaw
  let usage1 := update_usage_stats s.usage w.promptTokens w.completionTokens
  let s1 : AgentState := { s with usage := usage1 }
  let retry : StepResult :=
    { events := [⟨.AI_RESPONSE, .str responseText⟩, ⟨.WARN, .str warnInvalidJson⟩],
      state := s1, saved := Option.none, outcome := .next }
  let budgetCheck (evs : List Event) (s3 : AgentState) : StepResult :=
    costGuardStep abortOnTotalCost userPrompt w.savePath evs s3
  match parse_response responseText with
  | Option.none => retry
  | some v =>
    if ¬ pyTruthy v then retry
    else
      match get_tool_call (some v) with
      | .error m =>
        { events := [⟨.AI_RESPONSE, v⟩, ⟨.ABORT, .str m⟩], state := s1,
          saved := Option.none, outcome := .haltEx }
      | .ok tool_call =>
        if ¬ pyTruthy tool_call then
          { events := [⟨.AI_RESPONSE, v⟩, ⟨.ABORT, .str abortNoTool⟩], state := s1,
            saved := Option.none, outcome := .halt }
        else
          let s2 : AgentState :=
            { s1 with messages := s1.messages ++ [⟨"assistant", responseText⟩] }
          match tool_call with
          | .dict tckvs =>
            let tool_name := pyDictGetD tckvs "name" .none
            let parameters := pyDictGetD tckvs "parameters" (.dict [])
            match tool_name with
            | .str "execute_shell_command" =>
              (match handle_execute_shell_command w.shellEnv parameters with
               | .error m =>
                 { events := [⟨.AI_RESPONSE, v⟩, ⟨.ABORT, .str m⟩], state := s2,
                   saved := Option.none, outcome := .haltEx }
               | .ok ev =>
                 match ev.type with
                 | .TOOL_SUCCESS =>
                   let formatted := format_command_result ev.payload
                   budgetCheck [⟨.AI_RESPONSE, v⟩, ev]
                     { s2 with messages := s2.messages ++ [⟨"user", formatted⟩] }
                 | .TOOL_ERROR =>
                   budgetCheck [⟨.AI_RESPONSE, v⟩, ev]
                     { s2 with messages := s2.messages ++ [⟨"user", pyStrOf ev.payload⟩] }
                 | _ => budgetCheck [⟨.AI_RESPONSE, v⟩] s2)
            | .str "read_file" =>
              (match handle_read_file w.readResult parameters with
               | .error m =>
                 { events := [⟨.AI_RESPONSE, v⟩, ⟨.ABORT, .str m⟩], state := s2,
                   saved := Option.none, outcome := .haltEx }
               | .ok ev =>
                 budgetCheck [⟨.AI_RESPONSE, v⟩, ev]
                   { s2 with messages := s2.messages ++ [⟨"user", pyStrOf ev.payload⟩] })
            | .str "write_file" =>
              (match handle_write_file w.writeResult parameters with
               | .error m =>
                 { events := [⟨.AI_RESPONSE, v⟩, ⟨.ABORT, .str m⟩], state := s2,
                   saved := Option.none, outcome := .haltEx }
               | .ok ev =>
                 budgetCheck [⟨.AI_RESPONSE, v⟩, ev]
                   { s2 with messages := s2.messages ++ [⟨"user", pyStrOf ev.payload⟩] })
            | .str "task_complete" =>
              (match parameters with
               | .dict pkvs =>
                 let summary := pyDictGetD pkvs "summary" (.str "")
                 { events := [⟨.AI_RESPONSE, v⟩,
                              ⟨.INFO, .str (savedInfoMsg w.savePath)⟩,
                              ⟨.COMPLETED, summary⟩],
                   state := s2,
                   saved := some ⟨"completed", userPrompt, s2.messages, s2.usage⟩,
                   outcome := .halt }
               | pv =>
                 { events := [⟨.AI_RESPONSE, v⟩,
                              ⟨.ABORT, .str (noAttrText (pyTypeName pv) "get")⟩],
                   state := s2, saved := Option.none, outcome := .haltEx })
            | _ =>
              { events := [⟨.AI_RESPONSE, v⟩,
                           ⟨.INFO, .str (savedInfoMsg w.savePath)⟩,
                           ⟨.ABORT, .str (unknownToolMsg tool_name)⟩],
                state := s2,
                saved := some ⟨"failed", userPrompt, s2.messages, s2.usage⟩,
                outcome := .halt }
          | tc =>
            { events := [⟨.AI_RESPONSE, v⟩,
                         ⟨.ABORT, .str (noAttrText (pyTypeName tc) "get")⟩],
              state := s2, saved := Option.none, outcome := .haltEx }

/-! ## Concrete fixtures used by the theorems -/

/-- A benign subprocess environment: spawn succeeds, the child exits 0
in time with empty output. -/
def quietEnv : ShellEnv :=
  { spawnFails := false, spawnErrMsg := "", timesOut := false,
    stdout := "", stderr := "", returncode := 0, killedReturncode := -9 }

/-- The environment of a child that outlives the timeout and is killed
(`SIGKILL` gives `process.returncode = -9`). -/
def timedOutEnv : ShellEnv :=
  { quietEnv with timesOut := true }

/-- The environment in which spawning the interpreter raises. -/
def spawnFailEnv : ShellEnv :=
  { quietEnv with spawnFails := true, spawnErrMsg := "No such file or directory" }

/-- A two-message starting transcript (system prompt, user task). -/
def startState : AgentState :=
  { messages := [⟨"system", "sys"⟩, ⟨"user", "list files in /tmp"⟩],
    usage := reset_usage }

/-- A baseline world oracle; individual theorems override the reply. -/
def baseWorld : World :=
  { responseRaw := "", promptTokens := 10, completionTokens := 5,
    shellEnv := quietEnv, readResult := .ok "data", writeResult := .ok (),
    savePath := "logs/conversation_20260101_000000.json" }

/-- The `ls /tmp` reply of the C9 scenario. -/
def shellReply : String :=
  "\x7b\"tool_to_use\": \x7b\"name\": \"execute_shell_command\", \"parameters\": \x7b\"command\": \"ls /tmp\"\x7d\x7d\x7d"

/-- The C9 scenario world: the model picks `ls /tmp`, the child exits
`0` with two lines of stdout. -/
def lsWorld : World :=
  { baseWorld with
      responseRaw := shellReply
      shellEnv := { quietEnv with stdout := "fileA\nfileB\n" } }

/-! ## Claim theorems -/

/-- **C8** — usage-statistics invariant: after every
`update_usage_stats` the stored `total_cost` equals the pure function
`costOfCounters` of the two cumulative token counters (each divided by
one million and multiplied by its per-million rate, summed); the
counters are monotonically non-decreasing under non-negative
additions; and across a whole conversation — any fold of updates over
the `reset_usage` state installed at conversation start, the only
reset point — the stored `total_cost` is still that pure function of
the counters. -/
theorem usage_cost_pure_and_monotone
    (u : UsageStats) (a b : Int) (updates : List (Int × Int))
    (ha : 0 ≤ a) (hb : 0 ≤ b) :
    (update_usage_stats u a b).total_cost
        = costOfCounters (update_usage_stats u a b).prompt_tokens
            (update_usage_stats u a b).completion_tokens
      ∧ u.prompt_tokens ≤ (update_usage_stats u a b).prompt_tokens
      ∧ u.completion_tokens ≤ (update_usage_stats u a b).completion_tokens
      ∧ (applyUsageUpdates updates).total_cost
          = costOfCounters (applyUsageUpdates updates).prompt_tokens
              (applyUsageUpdates updates).completion_tokens := by
  refine ⟨rfl, ?_, ?_, ?_⟩
  · simpa [update_usage_stats] using ha
  · simpa [update_usage_stats] using hb
  · induction updates using List.reverseRecOn with
    | nil =>
        simp [applyUsageUpdates, reset_usage, costOfCounters]
    | append_singleton l p _ =>
        simp only [applyUsageUpdates, List.foldl_append, List.foldl_cons,
          List.foldl_nil]
        rfl

/-- Witness for C8 at a concrete usage history. -/
theorem usage_cost_pure_and_monotone_witness :
    (update_usage_stats reset_usage 3 4).total_cost
        = costOfCounters (update_usage_stats reset_usage 3 4).prompt_tokens
            (update_usage_stats reset_usage 3 4).completion_tokens
      ∧ reset_usage.prompt_tokens ≤ (update_usage_stats reset_usage 3 4).prompt_tokens
      ∧ reset_usage.completion_tokens
          ≤ (update_usage_stats reset_usage 3 4).completion_tokens
      ∧ (applyUsageUpdates [(3, 4), (10, 20)]).total_cost
          = costOfCounters (applyUsageUpdates [(3, 4), (10, 20)]).prompt_tokens
              (applyUsageUpdates [(3, 4), (10, 20)]).completion_tokens :=
  usage_cost_pure_and_monotone reset_usage 3 4 [(3, 4), (10, 20)]
    (by norm_num) (by norm_num)

/-- **C1** — the claim is what the source intended but the code does
not do it (code bug): on the timeout path the executor sets
`additional_error` and kills the child, but the locals `output` and
`error` stay unbound, so the subsequent `if error:` raises
`UnboundLocalError`; the outer handler therefore returns the generic
`"Unexpected error: ..."` result with returncode `-1`.  The returned
supplementary error is not the timeout message, and the exit code is
`-1` rather than the `-9` of the killed child.  The same holds for
`AgentTools.execute_shell_command`. -/
theorem timeout_result_is_unexpected_error :
    (run_shell_command_async timedOutEnv (.str "sleep 300")).1
        = { output := "", error := "",
            additional_error :=
              some ("Unexpected error: " ++ unboundLocalErrorText "error"),
            returncode := -1 }
      ∧ (run_shell_command_async timedOutEnv (.str "sleep 300")).1.additional_error
          ≠ some (timeoutKilledMsg (toString COMMAND_TIMEOUT_SECONDS))
      ∧ (run_shell_command_async timedOutEnv (.str "sleep 300")).1.returncode
          ≠ timedOutEnv.killedReturncode
      ∧ execute_shell_command [] timedOutEnv "sleep 300"
          = .ok ({ output := "", error := "",
                   additional_error :=
                     some ("Unexpected error: " ++ unboundLocalErrorText "error"),
                   returncode := -1 }, false) :=
  ⟨rfl, by decide, by decide, rfl⟩

/-- **C2**, counterexample — when spawning the interpreter raises, the
`finally` that deletes the script never runs: the temporary script
file still exists after the call returns, refuting the claimed "every
exit path ... including a failure to spawn the interpreter". -/
theorem temp_file_survives_spawn_failure :
    (run_shell_command_async spawnFailEnv (.str "ls")).2 = true := rfl

/-- **C2**, amended — the temporary script file does not exist after
the call on every exit path that reaches the spawned process: normal
completion, non-zero exit, timeout, and the internal
`UnboundLocalError`; only an exception raised before the inner `try`
(a non-string command while writing, or a spawn failure) leaks it.
Covers both `run_shell_command_async` and
`AgentTools.execute_shell_command`. -/
theorem temp_file_removed_when_spawn_succeeds
    (env : ShellEnv) (command : PyValue) (settings : List (String × PyValue))
    (c : String) (r : CmdResult) (b : Bool)
    (hw : scriptWriteError command = Option.none)
    (hs : env.spawnFails = false)
    (he : execute_shell_command settings env c = .ok (r, b)) :
    (run_shell_command_async env command).2 = false ∧ b = false := by
  constructor
  · unfold run_shell_command_async
    rw [hw, hs]
    by_cases ht : env.timesOut <;> simp [ht]
  · unfold execute_shell_command at he
    by_cases hc : c = ""
    · simp [hc] at he
    · rw [hs] at he
      by_cases ht : env.timesOut <;> simp [hc, ht] at he <;> exact he.2

/-- **C3** — a model reply that fails strict JSON parsing makes the
iteration yield exactly a `ModelReply` event carrying the raw text and
one `Warning` event, leave the transcript untouched (the malformed
reply is never appended), call no persistence, and loop back to query
the model again. -/
theorem malformed_reply_retries_without_append
    (limit : ℚ) (userPrompt : String) (w : World) (s : AgentState)
    (h : parse_response (pyStrip w.responseRaw) = Option.none) :
    processStep limit userPrompt w s
        = { events := [⟨.AI_RESPONSE, .str (pyStrip w.responseRaw)⟩,
                       ⟨.WARN, .str warnInvalidJson⟩],
            state := { s with
              usage := update_usage_stats s.usage w.promptTokens w.completionTokens },
            saved := Option.none, outcome := .next }
      ∧ (processStep limit userPrompt w s).state.messages = s.messages
      ∧ ((processStep limit userPrompt w s).events.filter
            (fun e => e.type == EventType.WARN)).length = 1 := by
  have hEq : processStep limit userPrompt w s
      = { events := [⟨.AI_RESPONSE, .str (pyStrip w.responseRaw)⟩,
                     ⟨.WARN, .str warnInvalidJson⟩],
          state := { s with
            usage := update_usage_stats s.usage w.promptTokens w.completionTokens },
          saved := Option.none, outcome := .next } := by
    unfold processStep
    simp only [h]
  exact ⟨hEq, by rw [hEq], by rw [hEq]; rfl⟩

/-- Witness for C3: the literal reply `not json`. -/
theorem malformed_reply_retries_without_append_witness :
    processStep (1/2) "list files in /tmp"
        { baseWorld with responseRaw := "not json" } startState
        = { events := [⟨.AI_RESPONSE, .str "not json"⟩,
                       ⟨.WARN, .str warnInvalidJson⟩],
            state := { startState with
              usage := update_usage_stats startState.usage 10 5 },
            saved := Option.none, outcome := .next }
      ∧ (processStep (1/2) "list files in /tmp"
            { baseWorld with responseRaw := "not json" } startState).state.messages
          = startState.messages
      ∧ ((processStep (1/2) "list files in /tmp"
            { baseWorld with responseRaw := "not json" } startState).events.filter
              (fun e => e.type == EventType.WARN)).length = 1 :=
  malformed_reply_retries_without_append (1/2) "list files in /tmp"
    { baseWorld with responseRaw := "not json" } startState rfl

/-- **C6** — the claimed abort happens, but persistence does not (code
bug): on a parsed reply carrying no usable `tool_to_use`, the loop
yields `ABORT` "No tool selection provided. Exiting." and breaks, yet
`save_messages` is never called on this path (`saved = none`), unlike
the unknown-tool path which persists with conclusion `failed`. -/
theorem no_tool_selection_aborts_without_save :
    processStep (1/2) "list files in /tmp"
        { baseWorld with responseRaw := "\x7b\"foo\": 1\x7d" } startState
      = { events := [⟨.AI_RESPONSE, .dict [("foo", .int 1)]⟩,
                     ⟨.ABORT, .str abortNoTool⟩],
          state := { startState with
            usage := update_usage_stats startState.usage 10 5 },
          saved := Option.none, outcome := .halt } := rfl

/-- **C7**, counterexample — the empty JSON object `{}` is falsy in
Python, so the loop routes it through the malformed-reply retry path
(raw `ModelReply`, `Warning`, re-query) instead of the hard abort the
claim requires for every reply missing the action-selection field. -/
theorem empty_object_reply_is_retried :
    processStep (1/2) "list files in /tmp"
        { baseWorld with responseRaw := "\x7b\x7d" } startState
      = { events := [⟨.AI_RESPONSE, .str "\x7b\x7d"⟩,
                     ⟨.WARN, .str warnInvalidJson⟩],
          state := { startState with
            usage := update_usage_stats startState.usage 10 5 },
          saved := Option.none, outcome := .next } := rfl

/-- **C7**, amended — a reply parsing to a non-empty JSON object with
no `tool_to_use` binding is treated as "no action selected": the loop
yields the parsed `ModelReply` then `ABORT`, breaks without retrying,
appends nothing to the transcript and persists nothing; only the empty
object (falsy) goes down the malformed-reply retry path instead. -/
theorem missing_tool_field_hard_abort
    (limit : ℚ) (userPrompt : String) (w : World) (s : AgentState)
    (kvs : List (String × PyValue))
    (hp : parse_response (pyStrip w.responseRaw) = some (.dict kvs))
    (hne : kvs ≠ [])
    (hmiss : pyDictGet kvs "tool_to_use" = Option.none) :
    processStep limit userPrompt w s
      = { events := [⟨.AI_RESPONSE, .dict kvs⟩, ⟨.ABORT, .str abortNoTool⟩],
          state := { s with
            usage := update_usage_stats s.usage w.promptTokens w.completionTokens },
          saved := Option.none, outcome := .halt } := by
  unfold processStep
  simp only [hp]
  simp [pyTruthy, hne, get_tool_call, hmiss]

/-- Witness for C7 (amended): the reply `{"a": 2}`. -/
theorem missing_tool_field_hard_abort_witness :
    processStep (1/2) "list files in /tmp"
        { baseWorld with responseRaw := "\x7b\"a\": 2\x7d" } startState
      = { events := [⟨.AI_RESPONSE, .dict [("a", .int 2)]⟩,
                     ⟨.ABORT, .str abortNoTool⟩],
          state := { startState with
            usage := update_usage_stats startState.usage 10 5 },
          saved := Option.none, outcome := .halt } :=
  missing_tool_field_hard_abort (1/2) "list files in /tmp"
    { baseWorld with responseRaw := "\x7b\"a\": 2\x7d" } startState
    [("a", .int 2)] rfl (by simp) rfl

/-- A backtick heads no JSON production: `parseValue` rejects it. -/
theorem parseValue_backtick (fuel : Nat) (cs : List Char) :
    parseValue (fuel + 1) (Char.ofNat 96 :: cs) = Option.none := by
  simp [parseValue, isDigitCh]

/-- A text whose first character is a backtick is rejected by
`json.loads` (the backtick is not JSON whitespace, so it is the first
character the grammar sees). -/
theorem json_loads_leading_backtick (s : String)
    (h : s.data.head? = some (Char.ofNat 96)) :
    json_loads s = Option.none := by
  unfold json_loads
  cases hd : s.data with
  | nil => rw [hd] at h; exact absurd h (by simp)
  | cons c cs =>
    rw [hd] at h
    have hc : c = Char.ofNat 96 := by simpa using h
    subst hc
    have hws : skipWs (Char.ofNat 96 :: cs) = Char.ofNat 96 :: cs := by
      simp [skipWs, jsonWs]
    rw [hws, List.length_cons, parseValue_backtick]

/-- **C5**, counterexample — the loop performs no code-fence
stripping: a reply whose valid JSON body is wrapped in a
triple-backtick fence tagged `json` fails `parse_response` (while the
bare body parses), and the iteration treats the fenced reply as
malformed — raw `ModelReply`, `Warning`, retry — rather than parsing
it successfully as the claim states. -/
theorem fenced_json_reply_treated_malformed :
    parse_response
        "```json\n\x7b\"tool_to_use\": \x7b\"name\": \"task_complete\"\x7d\x7d\n```"
        = Option.none
      ∧ parse_response "\x7b\"tool_to_use\": \x7b\"name\": \"task_complete\"\x7d\x7d"
          = some (.dict [("tool_to_use", .dict [("name", .str "task_complete")])])
      ∧ (processStep (1/2) "list files in /tmp"
            { baseWorld with responseRaw :=
                "```json\n\x7b\"tool_to_use\": \x7b\"name\": \"task_complete\"\x7d\x7d\n```" }
            startState).events.map Event.type = [.AI_RESPONSE, .WARN]
      ∧ (processStep (1/2) "list files in /tmp"
            { baseWorld with responseRaw :=
                "```json\n\x7b\"tool_to_use\": \x7b\"name\": \"task_complete\"\x7d\x7d\n```" }
            startState).outcome = .next :=
  ⟨rfl, rfl, rfl, rfl⟩

/-- **C5**, amended — before structured parsing the loop only applies
the `.strip()` from `query()`; no fence is removed.  Consequently any
reply whose stripped text still begins with a backtick — in particular
a valid JSON body wrapped in a ```json fence — fails strict parsing
and takes the malformed-reply path: raw `ModelReply` plus one
`Warning`, transcript unchanged, and a retry of the model query. -/
theorem no_fence_stripping_before_parse
    (limit : ℚ) (userPrompt : String) (w : World) (s : AgentState)
    (h : (pyStrip w.responseRaw).data.head? = some (Char.ofNat 96)) :
    processStep limit userPrompt w s
      = { events := [⟨.AI_RESPONSE, .str (pyStrip w.responseRaw)⟩,
                     ⟨.WARN, .str warnInvalidJson⟩],
          state := { s with
            usage := update_usage_stats s.usage w.promptTokens w.completionTokens },
          saved := Option.none, outcome := .next } := by
  have hp : parse_response (pyStrip w.responseRaw) = Option.none :=
    json_loads_leading_backtick _ h
  unfold processStep
  simp only [hp]

/-- Witness for C5 (amended): a fenced `task_complete` reply. -/
theorem no_fence_stripping_before_parse_witness :
    processStep (1/2) "list files in /tmp"
        { baseWorld with responseRaw :=
            "```json\n\x7b\"summary\": \"done\"\x7d\n```" } startState
      = { events := [⟨.AI_RESPONSE,
                      .str "```json\n\x7b\"summary\": \"done\"\x7d\n```"⟩,
                     ⟨.WARN, .str warnInvalidJson⟩],
          state := { startState with
            usage := update_usage_stats startState.usage 10 5 },
          saved := Option.none, outcome := .next } :=
  no_fence_stripping_before_parse (1/2) "list files in /tmp"
    { baseWorld with responseRaw := "```json\n\x7b\"summary\": \"done\"\x7d\n```" }
    startState rfl

/-- Dict test on a Python value. -/
def isDictValue : PyValue → Bool
  | .dict _ => true
  | _ => false

/-- **C10** — a reply parsing to a truthy non-dict JSON value (a
non-empty array, non-empty string, non-zero number, `true`): the loop
yields the parsed `ModelReply`, then the attribute
access inside `get_tool_call` raises; no retry and no transcript persistence happen, and the
generic handler of the generator yields a single `Aborted` event carrying
the exception text. -/
theorem truthy_non_dict_reply_generic_abort
    (limit : ℚ) (userPrompt : String) (w : World) (s : AgentState) (v : PyValue)
    (hp : parse_response (pyStrip w.responseRaw) = some v)
    (ht : pyTruthy v = true)
    (hd : isDictValue v = false) :
    processStep limit userPrompt w s
      = { events := [⟨.AI_RESPONSE, v⟩,
                     ⟨.ABORT, .str (noAttrText (pyTypeName v) "get")⟩],
          state := { s with
            usage := update_usage_stats s.usage w.promptTokens w.completionTokens },
          saved := Option.none, outcome := .haltEx } := by
  unfold processStep
  simp only [hp]
  cases v <;> simp_all [get_tool_call, isDictValue, pyTruthy]

/-- Witness for C10: the reply `["x"]`. -/
theorem truthy_non_dict_reply_generic_abort_witness :
    processStep (1/2) "list files in /tmp"
        { baseWorld with responseRaw := "[\"x\"]" } startState
      = { events := [⟨.AI_RESPONSE, .list [.str "x"]⟩,
                     ⟨.ABORT, .str (noAttrText (pyTypeName (.list [.str "x"])) "get")⟩],
          state := { startState with
            usage := update_usage_stats startState.usage 10 5 },
          saved := Option.none, outcome := .haltEx } :=
  truthy_non_dict_reply_generic_abort (1/2) "list files in /tmp"
    { baseWorld with responseRaw := "[\"x\"]" } startState
    (.list [.str "x"]) rfl rfl rfl


/-- `costGuardStep` leaves the state unchanged on both branches. -/
theorem costGuardStep_state (limit : ℚ) (up sp : String) (evs : List Event) (s3 : AgentState) :
    (costGuardStep limit up sp evs s3).state = s3 := by
  unfold costGuardStep; split <;> rfl

theorem costGuardStep_spec (limit : ℚ) (up sp : String) (evs : List Event) (s3 : AgentState) :
    ((∃ rec, (costGuardStep limit up sp evs s3).saved = some rec
        ∧ rec.conclusion = "aborted_due_cost")
      ↔ (0 < limit ∧ limit < s3.usage.total_cost))
    ∧ ((0 < limit ∧ limit < s3.usage.total_cost) →
        (costGuardStep limit up sp evs s3).outcome = .halt
        ∧ (costGuardStep limit up sp evs s3).events.getLast?
            = some ⟨.ABORT, .str (costLimitMsg limit)⟩
        ∧ (costGuardStep limit up sp evs s3).saved
            = some ⟨"aborted_due_cost", up, s3.messages, s3.usage⟩)
    ∧ (¬ (0 < limit ∧ limit < s3.usage.total_cost) →
        (costGuardStep limit up sp evs s3).outcome = .next
        ∧ (costGuardStep limit up sp evs s3).saved = Option.none) := by
  by_cases h : 0 < limit ∧ limit < s3.usage.total_cost
  · have hg : limit > 0 ∧ s3.usage.total_cost > limit := ⟨h.1, h.2⟩
    have he : costGuardStep limit up sp evs s3
        = { events := evs ++ [⟨.INFO, .str (savedInfoMsg sp)⟩,
                              ⟨.ABORT, .str (costLimitMsg limit)⟩],
            state := s3,
            saved := some ⟨"aborted_due_cost", up, s3.messages, s3.usage⟩,
            outcome := .halt } := by
      unfold costGuardStep; rw [if_pos hg]
    rw [he]
    refine ⟨?_, ?_, fun hc => absurd h hc⟩
    · exact iff_of_true ⟨_, rfl, rfl⟩ h
    intro _
    refine ⟨rfl, ?_, rfl⟩
    have hsplit : evs ++ [(⟨.INFO, .str (savedInfoMsg sp)⟩ : Event),
        ⟨.ABORT, .str (costLimitMsg limit)⟩]
        = (evs ++ [⟨.INFO, .str (savedInfoMsg sp)⟩])
            ++ [⟨.ABORT, .str (costLimitMsg limit)⟩] := by simp
    show (evs ++ [(⟨.INFO, .str (savedInfoMsg sp)⟩ : Event),
        ⟨.ABORT, .str (costLimitMsg limit)⟩]).getLast?
      = some (⟨.ABORT, .str (costLimitMsg limit)⟩ : Event)
    rw [hsplit, List.getLast?_concat]
  · have hg : ¬ (limit > 0 ∧ s3.usage.total_cost > limit) := fun hx => h ⟨hx.1, hx.2⟩
    have he : costGuardStep limit up sp evs s3
        = { events := evs, state := s3, saved := Option.none, outcome := .next } := by
      unfold costGuardStep; rw [if_neg hg]
    rw [he]
    refine ⟨iff_of_false ?_ h, fun hx => absurd hx h, fun _ => ⟨rfl, rfl⟩⟩
    rintro ⟨rec, hrec, -⟩
    cases hrec
theorem handle_execute_shell_command_ok (env : ShellEnv) (pkvs : List (String × PyValue)) :
    ∃ ev : Event, handle_execute_shell_command env (.dict pkvs) = .ok ev := by
  unfold handle_execute_shell_command
  by_cases h : pyTruthy (pyDictGetD pkvs "command" PyValue.none) = true
  · exact ⟨_, by simp [h]; rfl⟩
  · exact ⟨_, by simp [h]; rfl⟩

theorem handle_read_file_ok (r : Except String String) (pkvs : List (String × PyValue)) :
    ∃ ev : Event, handle_read_file r (.dict pkvs) = .ok ev := by
  unfold handle_read_file
  by_cases h : pyTruthy (pyDictGetD pkvs "filename" PyValue.none) = true
  · rcases r with e | c
    · exact ⟨_, by simp [h]; rfl⟩
    · exact ⟨_, by simp [h]; rfl⟩
  · exact ⟨_, by simp [h]; rfl⟩

theorem handle_write_file_ok (r : Except String Unit) (pkvs : List (String × PyValue)) :
    ∃ ev : Event, handle_write_file r (.dict pkvs) = .ok ev := by
  unfold handle_write_file
  by_cases h : pyTruthy (pyDictGetD pkvs "filename" PyValue.none) = true
  · rcases r with e | c
    · exact ⟨_, by simp [h]; rfl⟩
    · exact ⟨_, by simp [h]; rfl⟩
  · exact ⟨_, by simp [h]; rfl⟩

set_option maxHeartbeats 1000000 in
theorem budget_dispatch
    (limit : ℚ) (userPrompt : String) (w : World) (s : AgentState)
    (kvs tckvs pkvs : List (String × PyValue)) (n : String)
    (hp : parse_response (pyStrip w.responseRaw) = some (.dict kvs))
    (hkv : pyDictGet kvs "tool_to_use" = some (.dict tckvs))
    (hname : pyDictGet tckvs "name" = some (.str n))
    (hn : n = "execute_shell_command" ∨ n = "read_file" ∨ n = "write_file")
    (hparams : pyDictGet tckvs "parameters" = some (.dict pkvs)) :
    ∃ evs s3,
      s3.usage = update_usage_stats s.usage w.promptTokens w.completionTokens
      ∧ processStep limit userPrompt w s
          = costGuardStep limit userPrompt w.savePath evs s3 := by
  have hkne : kvs ≠ [] := by intro e; subst e; simp [pyDictGet] at hkv
  have htcne : tckvs ≠ [] := by intro e; subst e; simp [pyDictGet] at hname
  have hkb : kvs.isEmpty = false := by simpa [List.isEmpty_iff] using hkne
  have htb : tckvs.isEmpty = false := by simpa [List.isEmpty_iff] using htcne
  rcases hn with hn | hn | hn <;> subst hn
  · obtain ⟨ev, hev⟩ := handle_execute_shell_command_ok w.shellEnv pkvs
    obtain ⟨ty, pl⟩ := ev
    unfold processStep
    simp only [hp]
    cases ty <;>
      simp [pyTruthy, get_tool_call, hkv, hkb, htb, Bool.not_false, Option.getD_some,
        pyDictGetD, hname, hparams, hev] <;>
      exact ⟨_, _, rfl, rfl⟩
  · obtain ⟨ev, hev⟩ := handle_read_file_ok w.readResult pkvs
    unfold processStep
    simp only [hp]
    simp [pyTruthy, get_tool_call, hkv, hkb, htb, Bool.not_false, Option.getD_some,
      pyDictGetD, hname, hparams, hev]
    exact ⟨_, _, rfl, rfl⟩
  · obtain ⟨ev, hev⟩ := handle_write_file_ok w.writeResult pkvs
    unfold processStep
    simp only [hp]
    simp [pyTruthy, get_tool_call, hkv, hkb, htb, Bool.not_false, Option.getD_some,
      pyDictGetD, hname, hparams, hev]
    exact ⟨_, _, rfl, rfl⟩


/-- **C4** — the budget guard: the cumulative cost after the query is
the deterministic update of the counters; an iteration that executed a
known action (`execute_shell_command`, `read_file` or `write_file`)
persists the transcript with conclusion `aborted_due_cost` if and only
if the configured ceiling is strictly positive and the cumulative
estimated total cost strictly exceeds it (a zero or negative ceiling
disables the check); on breach the outcome is a `break` (no further
model query), the last event is `Aborted`, and the persisted record
carries the current transcript and usage; otherwise the loop proceeds
to the next query with nothing persisted. -/
theorem budget_guard
    (limit : ℚ) (userPrompt : String) (w : World) (s : AgentState)
    (kvs tckvs pkvs : List (String × PyValue)) (n : String)
    (hp : parse_response (pyStrip w.responseRaw) = some (.dict kvs))
    (hkv : pyDictGet kvs "tool_to_use" = some (.dict tckvs))
    (hname : pyDictGet tckvs "name" = some (.str n))
    (hn : n = "execute_shell_command" ∨ n = "read_file" ∨ n = "write_file")
    (hparams : pyDictGet tckvs "parameters" = some (.dict pkvs)) :
    (processStep limit userPrompt w s).state.usage
        = update_usage_stats s.usage w.promptTokens w.completionTokens
    ∧ ((∃ rec, (processStep limit userPrompt w s).saved = some rec
          ∧ rec.conclusion = "aborted_due_cost")
        ↔ (0 < limit
            ∧ limit < (processStep limit userPrompt w s).state.usage.total_cost))
    ∧ ((0 < limit
          ∧ limit < (processStep limit userPrompt w s).state.usage.total_cost) →
        (processStep limit userPrompt w s).outcome = .halt
        ∧ (processStep limit userPrompt w s).events.getLast?
            = some ⟨.ABORT, .str (costLimitMsg limit)⟩
        ∧ (processStep limit userPrompt w s).saved
            = some ⟨"aborted_due_cost", userPrompt,
                (processStep limit userPrompt w s).state.messages,
                (processStep limit userPrompt w s).state.usage⟩)
    ∧ (¬ (0 < limit
          ∧ limit < (processStep limit userPrompt w s).state.usage.total_cost) →
        (processStep limit userPrompt w s).outcome = .next
        ∧ (processStep limit userPrompt w s).saved = Option.none) := by
  obtain ⟨evs, s3, hu, he⟩ :=
    budget_dispatch limit userPrompt w s kvs tckvs pkvs n hp hkv hname hn hparams
  rw [he, costGuardStep_state]
  exact ⟨hu, (costGuardStep_spec limit userPrompt w.savePath evs s3).1,
    (costGuardStep_spec limit userPrompt w.savePath evs s3).2.1,
    (costGuardStep_spec limit userPrompt w.savePath evs s3).2.2⟩

/-- The C4 scenario world: the `ls /tmp` action, but with a query so
large that the accumulated cost crosses the `$0.5` ceiling. -/
def costWorld : World :=
  { lsWorld with promptTokens := 2000000 }

/-- Witness for C4 at a breaching run. -/
theorem budget_guard_witness :
    (processStep (1/2) "list files in /tmp" costWorld startState).state.usage
        = update_usage_stats startState.usage 2000000 5
    ∧ ((∃ rec, (processStep (1/2) "list files in /tmp" costWorld startState).saved
            = some rec ∧ rec.conclusion = "aborted_due_cost")
        ↔ (0 < (1/2 : ℚ)
            ∧ (1/2 : ℚ) < (processStep (1/2) "list files in /tmp" costWorld
                startState).state.usage.total_cost))
    ∧ ((0 < (1/2 : ℚ)
          ∧ (1/2 : ℚ) < (processStep (1/2) "list files in /tmp" costWorld
              startState).state.usage.total_cost) →
        (processStep (1/2) "list files in /tmp" costWorld startState).outcome = .halt
        ∧ (processStep (1/2) "list files in /tmp" costWorld startState).events.getLast?
            = some ⟨.ABORT, .str (costLimitMsg (1/2))⟩
        ∧ (processStep (1/2) "list files in /tmp" costWorld startState).saved
            = some ⟨"aborted_due_cost", "list files in /tmp",
                (processStep (1/2) "list files in /tmp" costWorld
                  startState).state.messages,
                (processStep (1/2) "list files in /tmp" costWorld
                  startState).state.usage⟩)
    ∧ (¬ (0 < (1/2 : ℚ)
          ∧ (1/2 : ℚ) < (processStep (1/2) "list files in /tmp" costWorld
              startState).state.usage.total_cost) →
        (processStep (1/2) "list files in /tmp" costWorld startState).outcome = .next
        ∧ (processStep (1/2) "list files in /tmp" costWorld startState).saved
            = Option.none) :=
  budget_guard (1/2) "list files in /tmp" costWorld startState
    [("tool_to_use",
      .dict [("name", .str "execute_shell_command"),
             ("parameters", .dict [("command", .str "ls /tmp")])])]
    [("name", .str "execute_shell_command"),
     ("parameters", .dict [("command", .str "ls /tmp")])]
    [("command", .str "ls /tmp")] "execute_shell_command"
    rfl rfl rfl (Or.inl rfl) rfl


/-- The formatted text for a zero-exit result with output: no `Errors`
section is produced (`error_section` is empty exactly when the exit
status is `0`). -/
theorem format_zero_exit (r : CmdResult) (h : r.output ≠ "") (hrc : r.returncode = 0) :
    format_command_result (cmdResultToPy r)
      = "Output of the command:\n```\n" ++ r.output ++ "\n```\nExit status: 0" := by
  obtain ⟨o, e, a, rc⟩ := r
  simp only [CmdResult.output] at h
  simp only [CmdResult.returncode] at hrc
  subst hrc
  simp [format_command_result, cmdResultToPy, pyDictGetD, pyDictGet, pyTruthy, pyStrOf, h,
    String.append_assoc, String.append_empty, String.empty_append]
  congr 2

/-- **C9** — for a parsed reply selecting `execute_shell_command` with
a non-empty command, where the child spawns, finishes in time, exits
`0` and produces non-empty (stripped) stdout, and the budget is not
breached: the shell runner returns the structured payload with exit
code `0` and no supplementary error; the iteration emits `ModelReply`
then `ActionSucceeded` carrying that unformatted payload, appends the
raw reply as an assistant message and then, as the next user-role
message, exactly
`"Output of the command:\n"` + fenced stdout + `"Exit status: 0"`,
with no `Errors` section, and continues to the next model query; and
in general the formatter emits no `Errors` section whenever the exit
status is `0` (it appears only for non-zero exits). -/
theorem shell_success_appends_formatted_output
    (limit : ℚ) (userPrompt : String) (w : World) (s : AgentState)
    (kvs tckvs pkvs : List (String × PyValue)) (c : String)
    (hp : parse_response (pyStrip w.responseRaw) = some (.dict kvs))
    (hkv : pyDictGet kvs "tool_to_use" = some (.dict tckvs))
    (hname : pyDictGet tckvs "name" = some (.str "execute_shell_command"))
    (hparams : pyDictGet tckvs "parameters" = some (.dict pkvs))
    (hcmd : pyDictGet pkvs "command" = some (.str c))
    (hc : c ≠ "")
    (hsf : w.shellEnv.spawnFails = false)
    (hto : w.shellEnv.timesOut = false)
    (hrc : w.shellEnv.returncode = 0)
    (hout : pyStrip w.shellEnv.stdout ≠ "")
    (hbudget : ¬ (0 < limit
        ∧ limit < (update_usage_stats s.usage w.promptTokens w.completionTokens).total_cost)) :
    (run_shell_command_async w.shellEnv (.str c)).1
        = { output := pyStrip w.shellEnv.stdout,
            error := if pyStrip w.shellEnv.stderr = "" then pyStrip w.shellEnv.stderr
                     else removeTmpLineNoise (pyStrip w.shellEnv.stderr),
            additional_error := Option.none, returncode := 0 }
      ∧ processStep limit userPrompt w s
          = { events := [⟨.AI_RESPONSE, .dict kvs⟩,
                         ⟨.TOOL_SUCCESS,
                          cmdResultToPy (run_shell_command_async w.shellEnv (.str c)).1⟩],
              state := { messages := s.messages
                             ++ [⟨"assistant", pyStrip w.responseRaw⟩,
                                 ⟨"user", "Output of the command:\n```\n"
                                     ++ pyStrip w.shellEnv.stdout
                                     ++ "\n```\nExit status: 0"⟩],
                         usage := update_usage_stats s.usage w.promptTokens
                                    w.completionTokens },
              saved := Option.none, outcome := .next }
      ∧ ∀ r : CmdResult, r.output ≠ "" → r.returncode = 0 →
          format_command_result (cmdResultToPy r)
            = "Output of the command:\n```\n" ++ r.output ++ "\n```\nExit status: 0" := by
  have hkne : kvs ≠ [] := by intro e; subst e; simp [pyDictGet] at hkv
  have htcne : tckvs ≠ [] := by intro e; subst e; simp [pyDictGet] at hname
  have hrun : (run_shell_command_async w.shellEnv (.str c)).1
      = { output := pyStrip w.shellEnv.stdout,
          error := if pyStrip w.shellEnv.stderr = "" then pyStrip w.shellEnv.stderr
                   else removeTmpLineNoise (pyStrip w.shellEnv.stderr),
          additional_error := Option.none, returncode := 0 } := by
    unfold run_shell_command_async scriptWriteError
    rw [hsf]
    simp [hto, hrc]
  have hfmt : format_command_result
        (cmdResultToPy (run_shell_command_async w.shellEnv (.str c)).1)
      = "Output of the command:\n```\n" ++ pyStrip w.shellEnv.stdout
          ++ "\n```\nExit status: 0" := by
    rw [hrun]
    exact format_zero_exit _ hout rfl
  refine ⟨hrun, ?_, fun r h1 h2 => format_zero_exit r h1 h2⟩
  unfold processStep
  simp only [hp]
  simp only [pyTruthy, get_tool_call, hkv, Bool.not_eq_true]
  have hkb : kvs.isEmpty = false := by simpa [List.isEmpty_iff] using hkne
  have htb : tckvs.isEmpty = false := by simpa [List.isEmpty_iff] using htcne
  simp [hkb, htb, Bool.not_false, Option.getD_some, handle_execute_shell_command,
    pyDictGetD, hname, hparams, hcmd, pyTruthy, hc, hfmt, costGuardStep,
    gt_iff_lt, hbudget]

/-- Witness for C9 at the `ls /tmp` scenario. -/
theorem shell_success_appends_formatted_output_witness :
    (run_shell_command_async lsWorld.shellEnv (.str "ls /tmp")).1
        = { output := pyStrip lsWorld.shellEnv.stdout,
            error := if pyStrip lsWorld.shellEnv.stderr = ""
                     then pyStrip lsWorld.shellEnv.stderr
                     else removeTmpLineNoise (pyStrip lsWorld.shellEnv.stderr),
            additional_error := Option.none, returncode := 0 }
      ∧ processStep (1/2) "list files in /tmp" lsWorld startState
          = { events := [⟨.AI_RESPONSE,
                          .dict [("tool_to_use",
                            .dict [("name", .str "execute_shell_command"),
                                   ("parameters",
                                    .dict [("command", .str "ls /tmp")])])]⟩,
                         ⟨.TOOL_SUCCESS,
                          cmdResultToPy
                            (run_shell_command_async lsWorld.shellEnv
                              (.str "ls /tmp")).1⟩],
              state := { messages := startState.messages
                             ++ [⟨"assistant", pyStrip lsWorld.responseRaw⟩,
                                 ⟨"user", "Output of the command:\n```\n"
                                     ++ pyStrip lsWorld.shellEnv.stdout
                                     ++ "\n```\nExit status: 0"⟩],
                         usage := update_usage_stats startState.usage 10 5 },
              saved := Option.none, outcome := .next }
      ∧ ∀ r : CmdResult, r.output ≠ "" → r.returncode = 0 →
          format_command_result (cmdResultToPy r)
            = "Output of the command:\n```\n" ++ r.output ++ "\n```\nExit status: 0" :=
  shell_success_appends_formatted_output (1/2) "list files in /tmp" lsWorld startState
    [("tool_to_use",
      .dict [("name", .str "execute_shell_command"),
             ("parameters", .dict [("command", .str "ls /tmp")])])]
    [("name", .str "execute_shell_command"),
     ("parameters", .dict [("command", .str "ls /tmp")])]
    [("command", .str "ls /tmp")] "ls /tmp"
    rfl rfl rfl rfl rfl (by decide) rfl rfl rfl (by decide)
    (by norm_num [update_usage_stats, reset_usage, startState, lsWorld, baseWorld,
      INPUT_COST_PER_MILLION, OUTPUT_COST_PER_MILLION])

/-- Witness for C2 (amended) at a concrete run with non-zero exit. -/
theorem temp_file_removed_when_spawn_succeeds_witness :
    (run_shell_command_async
        { quietEnv with returncode := 2, stderr := "boom" } (.str "nosuch")).2 = false
      ∧ false = false :=
  temp_file_removed_when_spawn_succeeds
    { quietEnv with returncode := 2, stderr := "boom" } (.str "nosuch") []
    "nosuch"
    { output := "", error := "boom", additional_error := Option.none, returncode := 2 }
    false rfl rfl rfl

end ShellControl
